import Mathlib

/-!
Verification of the IIS performance-counter check (`checks.d/iis.py`): a
shallow embedding of its extraction, availability-reconciliation and
submission pipeline, with theorems settling the specified properties.

Modelling conventions:
* Python floats are modelled as rationals (`ℚ`); every value the check
  manipulates passes through `float()` unchanged, so no rounding arises.
* A raw WMI property value (`RawValue`) is classified by the outcome of
  Python's `float()` coercion: `num q` coerces to `q` (covering numbers
  and numeric strings alike), `nonNumeric` raises `ValueError`, and
  `null` (a missing value, Python `None`) raises `TypeError`.
* Exceptions are modelled by `PyError`; a phase that can raise returns
  the emissions it performed before the raise together with an optional
  error, or an `Except` value where nothing is emitted first.
-/

/-- Python exceptions raised by the check. -/
inductive PyError where
  | keyError (key : String)
  | typeError
  | valueError
  | attributeError
  | unboundLocal (name : String)
deriving DecidableEq, Repr

/-- Outcome classification of a failed Python `float()` coercion. -/
inductive CoerceFail where
  | valueError
  | typeError
deriving DecidableEq, Repr

/-- A raw WMI property value, classified by how `float()` treats it. -/
inductive RawValue where
  | num (q : ℚ)
  | nonNumeric (s : String)
  | null
deriving DecidableEq, Repr

/-- Python `float(v)`: numbers (and numeric strings) coerce, other
strings raise `ValueError`, a missing value raises `TypeError`. -/
def coerceFloat : RawValue → Except CoerceFail ℚ
  | .num q => .ok q
  | .nonNumeric _ => .error .valueError
  | .null => .error .typeError

/-- One sampled WMI counter record: the site `Name` plus the mapping of
counter-property names to raw values (the spec's `CounterRecord`). -/
structure Record where
  Name : String
  props : List (String × RawValue)
deriving DecidableEq, Repr

/-- The `WMIMetric = namedtuple('WMIMetric', ['name', 'value', 'tags'])`
of the source.  Being a `namedtuple`, its fields are read-only. -/
structure WMIMetric where
  name : String
  value : ℚ
  tags : List String
deriving DecidableEq, Repr

/-- A warning logged by `_extract_metrics` via `self.log.warning`, keyed
by the property it identifies: `nonDigit` for the `ValueError` handler,
`missingProp` for the `TypeError` handler. -/
inductive Warning where
  | nonDigit (prop : String)
  | missingProp (prop : String)
deriving DecidableEq, Repr

/-- The property name a warning identifies. -/
def Warning.prop : Warning → String
  | .nonDigit p => p
  | .missingProp p => p

/-- The warning the matching `except` clause logs for a property. -/
def warnOf : CoerceFail → String → Warning
  | .valueError, p => .nonDigit p
  | .typeError, p => .missingProp p

/-- Result of one pass of the `_extract_metrics` loop body over a
record: the re-bound working tag list, the metrics appended for this
record and the warnings logged for it. -/
structure RecRes where
  tags : List String
  metrics : List WMIMetric
  warnings : List Warning
deriving DecidableEq, Repr

/-- The body of the `for wmi_obj in wmi_sampler` loop of
`_extract_metrics`.  `tags` is the working tag list entering the
iteration; `tags = list(tags) if tags else []` copies it (content is
unchanged, so the copy is the identity on a list value); the record is
skipped when its `Name` is not in `sites`; the bare `sitename` is
appended when it differs from `_Total`; each property then contributes a
metric tagged `tags + [sitename]`, or a warning when `float` raises. -/
def extractRecord (sites : List String) (tags : List String) (r : Record) : RecRes :=
  if r.Name ∈ sites then
    let tags1 := if r.Name ≠ "_Total" then tags ++ [r.Name] else tags
    { tags := tags1
      metrics := r.props.filterMap (fun pv =>
        match coerceFloat pv.2 with
        | .ok q => some ⟨pv.1, q, tags1 ++ [r.Name]⟩
        | .error _ => none)
      warnings := r.props.filterMap (fun pv =>
        match coerceFloat pv.2 with
        | .ok _ => none
        | .error e => some (warnOf e pv.1)) }
  else { tags := tags, metrics := [], warnings := [] }

/-- Metrics and warnings accumulated over a whole sample batch. -/
structure ExtractResult where
  metrics : List WMIMetric
  warnings : List Warning
deriving DecidableEq, Repr

/-- The `_extract_metrics` record loop: the working tag list is threaded
from one record to the next, because the loop re-binds the `tags` name
(shadowing the parameter) and the next iteration copies whatever the
previous record left. -/
def extractGo (sites : List String) (tags : List String) : List Record → ExtractResult
  | [] => ⟨[], []⟩
  | r :: rs =>
    let step := extractRecord sites tags r
    let rest := extractGo sites step.tags rs
    ⟨step.metrics ++ rest.metrics, step.warnings ++ rest.warnings⟩

/-- `IIS._extract_metrics(wmi_sampler, sites, tags)`. -/
def extract_metrics (wmi_sampler : List Record) (sites : List String)
    (tags : List String) : ExtractResult :=
  extractGo sites tags wmi_sampler

/-- Modelled from the spec: the service-check statuses of the reporting
backend (`AgentCheck.OK` / `AgentCheck.CRITICAL`; the `checks` module the
source imports lies outside this snapshot, spec section 6). -/
inductive Status where
  | OK
  | CRITICAL
deriving DecidableEq, Repr

/-- One `self.service_check(name, status, tags=...)` call. -/
structure SCEmission where
  name : String
  status : Status
  tags : List String
deriving DecidableEq, Repr

/-- Python `uptime == 0`: only a numeric value compares equal to `0`
(a string or `None` never does). -/
def uptimeIsZero : RawValue → Bool
  | .num q => q == 0
  | _ => false

/-- Service checks emitted by `_submit_events`, and the exception that
aborted it, if any. -/
structure EventsResult where
  emissions : List SCEmission
  error : Option PyError
deriving DecidableEq, Repr

/-- The `status` variable after one record: Python assigns it only inside
the `if uptime == 0` branch (where the conditional expression picks
CRITICAL when `uptime == 0` and OK otherwise), so with nonzero uptime it
keeps whatever value — possibly none at all — it had before. -/
def statusAfter (status : Option Status) (v : RawValue) : Option Status :=
  if uptimeIsZero v then
    some (if uptimeIsZero v then Status.CRITICAL else Status.OK)
  else status

/-- The record loop of `_submit_events`, threading the `expected_sites`
working set (a duplicate-free list) and the `status` local variable,
which Python leaves unassigned until the `uptime == 0` branch first
runs (reading it before then raises `UnboundLocalError`).
`wmi_obj["ServiceUptime"]` is a dict access, raising `KeyError` when
absent; `expected_sites.remove` raises `KeyError` when the name is not
in the set.  Returns the remaining working set, the checks emitted, and
the aborting error. -/
def eventsGo (expected : List String) (status : Option Status) :
    List Record → List String × List SCEmission × Option PyError
  | [] => (expected, [], none)
  | r :: rs =>
    if r.Name = "_Total" then eventsGo expected status rs
    else
      match r.props.lookup "ServiceUptime" with
      | none => (expected, [], some (.keyError "ServiceUptime"))
      | some v =>
        match statusAfter status v with
        | none => (expected, [], some (.unboundLocal "status"))
        | some st =>
          let e : SCEmission := ⟨"iis.site_up", st, ["site:" ++ r.Name]⟩
          if r.Name ∈ expected then
            let rest := eventsGo (expected.erase r.Name) (statusAfter status v) rs
            (rest.1, e :: rest.2.1, rest.2.2)
          else (expected, [e], some (.keyError r.Name))

/-- `IIS._submit_events(wmi_sampler, sites)`: per-site availability
checks, plus a CRITICAL check for every site left in the working set
once the records are exhausted.  Python's `set(sites)` is modelled as
`sites.dedup` (the set's iteration order is immaterial to every
property proved here). -/
def submit_events (wmi_sampler : List Record) (sites : List String) : EventsResult :=
  let res := eventsGo sites.dedup none wmi_sampler
  match res.2.2 with
  | some err => ⟨res.2.1, some err⟩
  | none =>
    ⟨res.2.1 ++ res.1.map (fun s => ⟨"iis.site_up", Status.CRITICAL, ["site:" ++ s]⟩),
      none⟩

/-- `IIS.METRICS`: `(output metric name, submission kind, counter
property)` triples. -/
def METRICS : List (String × String × String) := [
  ("iis.uptime", "gauge", "ServiceUptime"),
  ("iis.net.bytes_sent", "rate", "TotalBytesSent"),
  ("iis.net.bytes_rcvd", "rate", "TotalBytesReceived"),
  ("iis.net.bytes_total", "rate", "TotalBytesTransferred"),
  ("iis.net.num_connections", "gauge", "CurrentConnections"),
  ("iis.net.files_sent", "rate", "TotalFilesSent"),
  ("iis.net.files_rcvd", "rate", "TotalFilesReceived"),
  ("iis.net.connection_attempts", "rate", "TotalConnectionAttemptsAllInstances"),
  ("iis.httpd_request_method.get", "rate", "TotalGetRequests"),
  ("iis.httpd_request_method.post", "rate", "TotalPostRequests"),
  ("iis.httpd_request_method.head", "rate", "TotalHeadRequests"),
  ("iis.httpd_request_method.put", "rate", "TotalPutRequests"),
  ("iis.httpd_request_method.delete", "rate", "TotalDeleteRequests"),
  ("iis.httpd_request_method.options", "rate", "TotalOptionsRequests"),
  ("iis.httpd_request_method.trace", "rate", "TotalTraceRequests"),
  ("iis.errors.not_found", "rate", "TotalNotFoundErrors"),
  ("iis.errors.locked", "rate", "TotalLockedErrors"),
  ("iis.users.anon", "rate", "TotalAnonymousUsers"),
  ("iis.users.nonanon", "rate", "TotalNonAnonymousUsers"),
  ("iis.requests.cgi", "rate", "TotalCGIRequests"),
  ("iis.requests.isapi", "rate", "TotalISAPIExtensionRequests")]

/-- The `metrics_by_property` dict built in `check`: counter property ↦
`(metric, metric_type)`.  The property names in `METRICS` are pairwise
distinct, so the dict is modelled by the association list looked up
front-to-back. -/
def metrics_by_property : List (String × String × String) :=
  METRICS.map (fun t => (t.2.2, t.1, t.2.1))

/-- One `gauge`/`rate` submission call: the kind string the dispatcher
resolved, the output metric name, the value and the tags. -/
structure MetricEmission where
  kind : String
  name : String
  value : ℚ
  tags : List String
deriving DecidableEq, Repr

/-- Metric submissions performed by `_submit_metrics`, and the exception
that aborted it, if any. -/
structure SubmitResult where
  emissions : List MetricEmission
  error : Option PyError
deriving DecidableEq, Repr

/-- One pass of the `_submit_metrics` loop body.  `WMIMetric` is a
`namedtuple`, whose fields are read-only: the alias-correcting
assignments `m.name = ...` raise `AttributeError`.  A name matching
neither alias and absent from `metrics_by_property` is dropped
(`continue`); otherwise the source resolves `(metric, mtype)` and
dispatches through the submission method named by `mtype` — the
dispatch itself is modelled from the spec (section 4.4: invoke the
submission call matching the kind), recorded as the emission's kind. -/
def submitMetric (metricsByProp : List (String × String × String)) (m : WMIMetric) :
    Except PyError (Option MetricEmission) :=
  if m.name = "TotalBytesTransfered" then .error .attributeError
  else if m.name = "TotalConnectionAttemptsallinstances" then .error .attributeError
  else
    match metricsByProp.lookup m.name with
    | none => .ok none
    | some mt => .ok (some ⟨mt.2, mt.1, m.value, m.tags⟩)

/-- The `for m in wmi_metrics` loop of `_submit_metrics`: each metric is
submitted individually, and an exception aborts the loop. -/
def submitGo (metricsByProp : List (String × String × String)) :
    List WMIMetric → SubmitResult
  | [] => ⟨[], none⟩
  | m :: ms =>
    match submitMetric metricsByProp m with
    | .error e => ⟨[], some e⟩
    | .ok none => submitGo metricsByProp ms
    | .ok (some em) =>
      let rest := submitGo metricsByProp ms
      ⟨em :: rest.emissions, rest.error⟩

/-- `IIS._submit_metrics(wmi_metrics, metrics_by_property)`. -/
def submit_metrics (wmi_metrics : List WMIMetric)
    (metricsByProp : List (String × String × String)) : SubmitResult :=
  submitGo metricsByProp wmi_metrics

/-- An instance configuration (spec section 6), with the defaults of
`instance.get` already applied (`sites` defaults to `["_Total"]`). -/
structure CheckInstance where
  host : String
  username : String
  password : String
  tags : List String
  sites : List String
deriving Repr

/-- Python `str.format` restricted to a template of named placeholders,
as in the instance-key template naming `host`, `namespace` and `class`:
each named field is looked up among the keyword arguments only —
positional arguments are never consulted by a named field — so the
first field missing from the keywords raises `KeyError`.  `pos` carries
the (ignored) positional arguments to mirror the call site. -/
def pyFormatNamed (pos : List String) (kw : List (String × String)) :
    List String → Except PyError String
  | [] => .ok ""
  | f :: fs =>
    match kw.lookup f with
    | none => .error (.keyError f)
    | some v =>
      match pyFormatNamed pos kw fs with
      | .error e => .error e
      | .ok rest => .ok (v ++ ":" ++ rest)

/-- The call `self._extract_metrics(wmi_sampler, instance_tags)` in
`check` passes two arguments to a method whose signature
`_extract_metrics(self, wmi_sampler, sites, tags)` requires three: in
Python the call itself raises `TypeError` before the body runs. -/
def extract_metrics_two_arg_call (_wmi_sampler : List Record)
    (_tags : List String) : Except PyError (List WMIMetric) :=
  .error .typeError

/-- `IIS.NAMESPACE`. -/
def NAMESPACE : String := "root\\CIMV2"

/-- `IIS.CLASS`. -/
def CLASS : String := "Win32_PerfFormattedData_W3SVC_WebService"

/-- `IIS.check(instance)`: option reading, instance-key formatting, the
(external) sampling step — the sampled records are passed in — then
extraction, the availability checks and the metric submissions.  The
instance-key template's placeholders are all named while the call
passes only positional arguments, so formatting raises `KeyError` at
once; the remainder is the faithful continuation that would run had it
not (errors inside the two submission phases are carried in their
result records). -/
def check (inst : CheckInstance) (sampled : List Record) :
    Except PyError (List WMIMetric × EventsResult × SubmitResult) := do
  let _instance_key ← pyFormatNamed [inst.host, NAMESPACE, CLASS] []
    ["host", "namespace", "class"]
  let ms ← extract_metrics_two_arg_call sampled inst.tags
  let ev := submit_events sampled inst.sites
  let sub := submit_metrics ms metrics_by_property
  .ok (ms, ev, sub)

/-! ## Helper lemmas -/

/-- The `site:%s` tag format is injective in the site name. -/
theorem site_tag_inj {a b : String} (h : "site:" ++ a = "site:" ++ b) : a = b := by
  have hd := congrArg String.data h
  simp only [String.data_append] at hd
  exact String.ext (List.append_cancel_left hd)

/-- Filtering a keyed `filterMap` by a key absent from the association
list yields nothing. -/
theorem keyed_filterMap_filter_of_not_mem {γ : Type} (F : String → RawValue → Option γ)
    (key : γ → String) (hkey : ∀ a b c, F a b = some c → key c = a)
    (props : List (String × RawValue)) (p : String)
    (hp : p ∉ props.map Prod.fst) :
    (props.filterMap (fun pv => F pv.1 pv.2)).filter (fun c => key c == p) = [] := by
  induction props with
  | nil => rfl
  | cons a props ih =>
    simp only [List.map_cons, List.mem_cons, not_or] at hp
    obtain ⟨hne, hrest⟩ := hp
    rw [List.filterMap_cons]
    cases hF : F a.1 a.2 with
    | none => exact ih hrest
    | some c =>
      dsimp only
      rw [List.filter_cons]
      have hkc : (key c == p) = false := by
        rw [hkey a.1 a.2 c hF]
        exact beq_false_of_ne (fun hc => hne hc.symm)
      rw [hkc]
      exact ih hrest

/-- Filtering a keyed `filterMap` over an association list with pairwise
distinct keys by the key of one of its entries isolates exactly the
image of that entry. -/
theorem keyed_filterMap_filter_of_mem {γ : Type} (F : String → RawValue → Option γ)
    (key : γ → String) (hkey : ∀ a b c, F a b = some c → key c = a)
    (props : List (String × RawValue)) (p : String) (v : RawValue)
    (hnd : (props.map Prod.fst).Nodup) (hmem : (p, v) ∈ props) :
    (props.filterMap (fun pv => F pv.1 pv.2)).filter (fun c => key c == p)
      = (F p v).toList := by
  induction props with
  | nil => exact absurd hmem (List.not_mem_nil _)
  | cons a props ih =>
    rw [List.map_cons, List.nodup_cons] at hnd
    obtain ⟨hhd, hnd'⟩ := hnd
    rw [List.filterMap_cons]
    rcases List.mem_cons.1 hmem with heq | hmem'
    · subst heq
      have hrest : p ∉ props.map Prod.fst := hhd
      cases hF : F p v with
      | none =>
        dsimp only
        exact keyed_filterMap_filter_of_not_mem F key hkey props p hrest
      | some c =>
        dsimp only
        rw [List.filter_cons]
        have hkc : (key c == p) = true := by
          rw [hkey p v c hF]; exact beq_self_eq_true p
        rw [hkc]
        rw [keyed_filterMap_filter_of_not_mem F key hkey props p hrest]
        rfl
    · have hne : a.1 ≠ p := by
        intro hc
        exact hhd (hc ▸ List.mem_map.2 ⟨(p, v), hmem', rfl⟩)
      cases hF : F a.1 a.2 with
      | none => exact ih hnd' hmem'
      | some c =>
        dsimp only
        rw [List.filter_cons]
        have hkc : (key c == p) = false := by
          rw [hkey a.1 a.2 c hF]
          exact beq_false_of_ne hne
        rw [hkc]
        exact ih hnd' hmem'

/-! ## Claim theorems -/

/-- C1: the claim fails on the code.  With a single observed record whose
`ServiceUptime` is nonzero, `status` is assigned only inside the
`uptime == 0` branch, so `_submit_events` raises `UnboundLocalError`
instead of emitting an OK check; and after a zero-uptime record, a later
nonzero-uptime record is emitted with the stale CRITICAL status rather
than OK.  The CRITICAL half of the claim (zero uptime) does hold, as the
second conjunct's first emission shows. -/
theorem c1_uptime_status_bug :
    submit_events [⟨"site1", [("ServiceUptime", .num 5)]⟩] ["site1"]
      = ⟨[], some (.unboundLocal "status")⟩ ∧
    submit_events [⟨"a", [("ServiceUptime", .num 0)]⟩,
                   ⟨"b", [("ServiceUptime", .num 7)]⟩] ["a", "b"]
      = ⟨[⟨"iis.site_up", .CRITICAL, ["site:a"]⟩,
          ⟨"iis.site_up", .CRITICAL, ["site:b"]⟩], none⟩ := by
  exact ⟨rfl, rfl⟩

/-- C2 counterexample: with two filtered-in sites, the bare tag `site1`
appended while processing the first record also appears in the tag set
of the second record's metric (the loop re-binds `tags`, so the second
iteration copies the first record's list, not the caller's), refuting
the claim that tags appended for one record never reach another. -/
theorem c2_counterexample :
    (extract_metrics
        [⟨"site1", [("CurrentConnections", .num 1)]⟩,
         ⟨"site2", [("CurrentConnections", .num 1)]⟩]
        ["site1", "site2"] []).metrics.map WMIMetric.tags
      = [["site1", "site1"], ["site1", "site2", "site2"]] := by
  exact rfl

/-- C3: the claim fails on the code.  `WMIMetric` is a `namedtuple`, so
the correcting assignment `m.name = ...` raises `AttributeError` for both
alias spellings instead of submitting the metric; moreover the second
alias's target, `TotalConnectionAttemptsAllinstances`, is not even a
catalog key (the catalog has `TotalConnectionAttemptsAllInstances`),
while the first alias's target does resolve as the claim describes. -/
theorem c3_alias_rewrite_raises :
    submit_metrics [⟨"TotalBytesTransfered", 1, []⟩] metrics_by_property
      = ⟨[], some .attributeError⟩ ∧
    submit_metrics [⟨"TotalConnectionAttemptsallinstances", 2, []⟩] metrics_by_property
      = ⟨[], some .attributeError⟩ ∧
    metrics_by_property.lookup "TotalConnectionAttemptsAllinstances" = none ∧
    metrics_by_property.lookup "TotalBytesTransferred"
      = some ("iis.net.bytes_total", "rate") := by
  exact ⟨rfl, rfl, rfl, rfl⟩

/-- C4 counterexample: a metric named with the first alias is neither
dropped silently nor dispatched with its corrected catalog entry — the
loop raises `AttributeError` on the namedtuple field assignment before
any catalog lookup. -/
theorem c4_counterexample :
    submit_metrics [⟨"TotalBytesTransfered", 3, ["t"]⟩] metrics_by_property
      = ⟨[], some .attributeError⟩ := by
  exact rfl

/-- C5: the claim fails on the code.  A sampled non-`_Total` site absent
from the expected-sites working set makes `expected_sites.remove(...)`
raise `KeyError` (after the site's own check was emitted), aborting the
reconciliation instead of proceeding. -/
theorem c5_remove_absent_raises :
    submit_events [⟨"s1", [("ServiceUptime", .num 0)]⟩] []
      = ⟨[⟨"iis.site_up", .CRITICAL, ["site:s1"]⟩], some (.keyError "s1")⟩ := by
  exact rfl

/-- C6: the claim fails on the code.  An observed `_Total` record is
indeed skipped by the per-record loop, but `_Total` is never removed
from the expected-sites working set, so with the default configuration
(`sites = ["_Total"]`) the leftover loop emits a CRITICAL `iis.site_up`
check tagged `site:_Total` every cycle. -/
theorem c6_total_reconciliation_bug :
    submit_events [⟨"_Total", [("ServiceUptime", .num 300)]⟩] ["_Total"]
      = ⟨[⟨"iis.site_up", .CRITICAL, ["site:_Total"]⟩], none⟩ := by
  exact rfl

/-- C10: every invocation of `check` raises before any metric or service
check is submitted: the instance-key template's placeholders are all
named while `str.format` receives only positional arguments, so
formatting raises `KeyError` for `host` at once (and, had it not, the
two-argument call to the three-argument `_extract_metrics` would raise
`TypeError` next). -/
theorem c10_check_never_completes (inst : CheckInstance) (sampled : List Record) :
    check inst sampled = .error (.keyError "host") := by
  exact rfl

/-- C2 (amended): within one pass of the record loop over a filtered-in
record, the record's tag set starts from the working tag list entering
that record — initially the caller's base tags, thereafter whatever
earlier records left, since the loop re-binds `tags` — the caller's
list itself is never mutated (the loop copies before appending), and
the bare sitename is appended as the record-level tag exactly when the
sitename is not `_Total`: for a non-`_Total` record the working list
grows by the bare sitename and each metric carries it plus the
per-metric sitename copy, while for a `_Total` record the working list
is unchanged and each metric carries only the per-metric copy. -/
theorem c2_record_tagging (sites tags : List String) (r : Record)
    (h1 : r.Name ∈ sites) :
    (r.Name ≠ "_Total" →
      (extractRecord sites tags r).tags = tags ++ [r.Name] ∧
      ∀ m ∈ (extractRecord sites tags r).metrics,
        m.tags = (tags ++ [r.Name]) ++ [r.Name]) ∧
    (r.Name = "_Total" →
      (extractRecord sites tags r).tags = tags ∧
      ∀ m ∈ (extractRecord sites tags r).metrics,
        m.tags = tags ++ [r.Name]) := by
  have hmemtags : ∀ (T : List String) (m : WMIMetric),
      m ∈ r.props.filterMap (fun pv =>
        match coerceFloat pv.2 with
        | .ok q => some ⟨pv.1, q, T⟩
        | .error _ => none) → m.tags = T := by
    intro T m hm
    rcases List.mem_filterMap.1 hm with ⟨pv, _, hf⟩
    cases hc : coerceFloat pv.2 with
    | ok q =>
      rw [hc] at hf
      dsimp only at hf
      cases Option.some.inj hf
      rfl
    | error e =>
      rw [hc] at hf
      exact absurd hf (by simp)
  unfold extractRecord
  rw [if_pos h1]
  dsimp only
  constructor
  · intro h2
    rw [if_pos h2]
    exact ⟨rfl, fun m hm => hmemtags _ m hm⟩
  · intro h2
    rw [if_neg (fun hc => hc h2)]
    exact ⟨rfl, fun m hm => hmemtags _ m hm⟩

/-- C2 witness: concrete filtered-in records — one ordinary site, one
`_Total` — instantiating both halves of the record-level tagging
theorem. -/
theorem c2_record_tagging_witness :
    ((("s" : String) ≠ "_Total" →
      (extractRecord ["s"] ["base"] ⟨"s", [("P", RawValue.num 2)]⟩).tags
          = ["base"] ++ ["s"] ∧
      ∀ m ∈ (extractRecord ["s"] ["base"] ⟨"s", [("P", RawValue.num 2)]⟩).metrics,
        m.tags = (["base"] ++ ["s"]) ++ ["s"]) ∧
     (("s" : String) = "_Total" →
      (extractRecord ["s"] ["base"] ⟨"s", [("P", RawValue.num 2)]⟩).tags = ["base"] ∧
      ∀ m ∈ (extractRecord ["s"] ["base"] ⟨"s", [("P", RawValue.num 2)]⟩).metrics,
        m.tags = ["base"] ++ ["s"])) ∧
    ((("_Total" : String) ≠ "_Total" →
      (extractRecord ["_Total"] ["base"] ⟨"_Total", [("P", RawValue.num 2)]⟩).tags
          = ["base"] ++ ["_Total"] ∧
      ∀ m ∈ (extractRecord ["_Total"] ["base"]
          ⟨"_Total", [("P", RawValue.num 2)]⟩).metrics,
        m.tags = (["base"] ++ ["_Total"]) ++ ["_Total"]) ∧
     (("_Total" : String) = "_Total" →
      (extractRecord ["_Total"] ["base"] ⟨"_Total", [("P", RawValue.num 2)]⟩).tags
          = ["base"] ∧
      ∀ m ∈ (extractRecord ["_Total"] ["base"]
          ⟨"_Total", [("P", RawValue.num 2)]⟩).metrics,
        m.tags = ["base"] ++ ["_Total"])) :=
  ⟨c2_record_tagging ["s"] ["base"] ⟨"s", [("P", RawValue.num 2)]⟩ (by decide),
   c2_record_tagging ["_Total"] ["base"] ⟨"_Total", [("P", RawValue.num 2)]⟩
     (by decide)⟩

/-- C4 (amended): for every metric whose name is neither of the two
alias strings, the dispatcher behaves as claimed — a name with no entry
in `metrics_by_property` is dropped silently, and a name with an entry
is dispatched through the call named by the catalog kind with the
output name, the value and the tags; a metric named exactly one of the
alias strings instead raises `AttributeError` (see the
counterexample). -/
theorem c4_dispatch (m : WMIMetric)
    (h1 : m.name ≠ "TotalBytesTransfered")
    (h2 : m.name ≠ "TotalConnectionAttemptsallinstances") :
    (metrics_by_property.lookup m.name = none →
      submitMetric metrics_by_property m = .ok none) ∧
    ∀ out kind, metrics_by_property.lookup m.name = some (out, kind) →
      submitMetric metrics_by_property m
        = .ok (some ⟨kind, out, m.value, m.tags⟩) := by
  unfold submitMetric
  rw [if_neg h1, if_neg h2]
  constructor
  · intro h
    rw [h]
  · intro out kind h
    rw [h]

/-- C4 witness: a catalogued, non-alias metric is dispatched as a rate
with its catalog output name. -/
theorem c4_dispatch_witness :
    submitMetric metrics_by_property ⟨"TotalGetRequests", 3, ["t"]⟩
      = .ok (some ⟨"rate", "iis.httpd_request_method.get", 3, ["t"]⟩) :=
  (c4_dispatch ⟨"TotalGetRequests", 3, ["t"]⟩ (by decide) (by decide)).2
    "iis.httpd_request_method.get" "rate" (by rfl)

/-- Unfolding equation for one step of the extraction record loop. -/
theorem extractGo_cons (sites tags : List String) (r : Record) (rs : List Record) :
    extractGo sites tags (r :: rs)
      = ⟨(extractRecord sites tags r).metrics
            ++ (extractGo sites (extractRecord sites tags r).tags rs).metrics,
         (extractRecord sites tags r).warnings
            ++ (extractGo sites (extractRecord sites tags r).tags rs).warnings⟩ := rfl

/-- C8: a record whose `Name` is not in the configured site filter
contributes no metrics at all — extraction of a batch containing it
equals extraction of the batch with it removed (the `continue` fires
before the record could touch the working tag list or emit). -/
theorem c8_filtered_out_record (sites tags : List String) (r : Record)
    (h : r.Name ∉ sites) (pre post : List Record) :
    extract_metrics (pre ++ r :: post) sites tags
      = extract_metrics (pre ++ post) sites tags := by
  unfold extract_metrics
  induction pre generalizing tags with
  | nil =>
    show extractGo sites tags (r :: post) = extractGo sites tags post
    have hr : extractRecord sites tags r = ⟨tags, [], []⟩ := by
      unfold extractRecord
      rw [if_neg h]
    rw [extractGo_cons, hr]
    exact rfl
  | cons a pre ih =>
    show extractGo sites tags (a :: (pre ++ r :: post))
      = extractGo sites tags (a :: (pre ++ post))
    rw [extractGo_cons, extractGo_cons, ih]

/-- C8 witness: a record for an unrequested site is dropped whole from a
concrete batch. -/
theorem c8_filtered_out_record_witness :
    extract_metrics ([] ++ ⟨"other", [("ServiceUptime", RawValue.num 1)]⟩ ::
        [⟨"_Total", [("ServiceUptime", RawValue.num 2)]⟩]) ["_Total"] []
      = extract_metrics ([] ++ [⟨"_Total", [("ServiceUptime", RawValue.num 2)]⟩])
          ["_Total"] [] :=
  c8_filtered_out_record ["_Total"] [] ⟨"other", [("ServiceUptime", RawValue.num 1)]⟩
    (by decide) [] [⟨"_Total", [("ServiceUptime", RawValue.num 2)]⟩]

/-- C9: per-property error containment in extraction of a filtered-in
record whose property names are pairwise distinct (properties form a
key-unique mapping): a numeric-coercible property yields exactly one
metric carrying the coerced value and no warning, while a non-numeric or
absent property yields no metric and exactly the one warning the
matching handler logs for it — the other properties being unaffected. -/
theorem c9_property_coercion (sites tags : List String) (r : Record)
    (hr : r.Name ∈ sites) (hnd : (r.props.map Prod.fst).Nodup)
    (p : String) (v : RawValue) (hmem : (p, v) ∈ r.props) :
    (∀ q, coerceFloat v = .ok q →
      (extractRecord sites tags r).metrics.filter (fun m => m.name == p)
          = [⟨p, q, (extractRecord sites tags r).tags ++ [r.Name]⟩] ∧
      (extractRecord sites tags r).warnings.filter (fun w => w.prop == p) = []) ∧
    (∀ e, coerceFloat v = .error e →
      (extractRecord sites tags r).metrics.filter (fun m => m.name == p) = [] ∧
      (extractRecord sites tags r).warnings.filter (fun w => w.prop == p)
          = [warnOf e p]) := by
  unfold extractRecord
  rw [if_pos hr]
  dsimp only
  generalize (if r.Name ≠ "_Total" then tags ++ [r.Name] else tags) = T
  have hkeyM : ∀ (a : String) (b : RawValue) (c : WMIMetric),
      (match coerceFloat b with
        | .ok q => some (⟨a, q, T ++ [r.Name]⟩ : WMIMetric)
        | .error _ => none) = some c → c.name = a := by
    intro a b c hc
    cases hb : coerceFloat b with
    | ok q =>
      rw [hb] at hc
      cases Option.some.inj hc
      rfl
    | error e =>
      rw [hb] at hc
      exact absurd hc (by simp)
  have hM := keyed_filterMap_filter_of_mem
      (fun a b => match coerceFloat b with
        | .ok q => some (⟨a, q, T ++ [r.Name]⟩ : WMIMetric)
        | .error _ => none)
      WMIMetric.name hkeyM r.props p v hnd hmem
  dsimp only at hM
  have hkeyW : ∀ (a : String) (b : RawValue) (c : Warning),
      (match coerceFloat b with
        | .ok _ => (none : Option Warning)
        | .error e => some (warnOf e a)) = some c → c.prop = a := by
    intro a b c hc
    cases hb : coerceFloat b with
    | ok q =>
      rw [hb] at hc
      exact absurd hc (by simp)
    | error e =>
      rw [hb] at hc
      cases Option.some.inj hc
      cases e <;> rfl
  have hW := keyed_filterMap_filter_of_mem
      (fun a b => match coerceFloat b with
        | .ok _ => (none : Option Warning)
        | .error e => some (warnOf e a))
      Warning.prop hkeyW r.props p v hnd hmem
  dsimp only at hW
  constructor
  · intro q hq
    rw [hq] at hM hW
    exact ⟨hM, hW⟩
  · intro e he
    rw [he] at hM hW
    exact ⟨hM, hW⟩

/-- C9 witness: a non-numeric property of a concrete filtered-in record
yields no metric and exactly one warning naming it. -/
theorem c9_property_coercion_witness :
    (extractRecord ["site1"] []
        ⟨"site1", [("ServiceUptime", RawValue.num 4),
                   ("TotalGetRequests", RawValue.nonNumeric "garbage")]⟩).metrics.filter
        (fun m => m.name == "TotalGetRequests") = [] ∧
    (extractRecord ["site1"] []
        ⟨"site1", [("ServiceUptime", RawValue.num 4),
                   ("TotalGetRequests", RawValue.nonNumeric "garbage")]⟩).warnings.filter
        (fun w => w.prop == "TotalGetRequests")
      = [warnOf .valueError "TotalGetRequests"] :=
  (c9_property_coercion ["site1"] []
      ⟨"site1", [("ServiceUptime", RawValue.num 4),
                 ("TotalGetRequests", RawValue.nonNumeric "garbage")]⟩
      (by decide) (by decide) "TotalGetRequests" (RawValue.nonNumeric "garbage")
      (by decide)).2 CoerceFail.valueError rfl


/-- Unfolding: a `_Total` record is skipped by the reconciliation loop. -/
theorem eventsGo_cons_total (expected : List String) (status : Option Status)
    (r : Record) (rs : List Record) (hT : r.Name = "_Total") :
    eventsGo expected status (r :: rs) = eventsGo expected status rs := by
  conv_lhs => unfold eventsGo
  rw [if_pos hT]

/-- Unfolding: a non-`_Total` record without a `ServiceUptime` property
aborts the loop with `KeyError`. -/
theorem eventsGo_cons_nolookup (expected : List String) (status : Option Status)
    (r : Record) (rs : List Record) (hT : ¬r.Name = "_Total")
    (hlk : r.props.lookup "ServiceUptime" = none) :
    eventsGo expected status (r :: rs)
      = (expected, [], some (.keyError "ServiceUptime")) := by
  conv_lhs => unfold eventsGo
  rw [if_neg hT, hlk]

/-- Unfolding: with nonzero uptime and no previously assigned status the
loop aborts with `UnboundLocalError`. -/
theorem eventsGo_cons_nostatus (expected : List String) (status : Option Status)
    (r : Record) (rs : List Record) (v : RawValue) (hT : ¬r.Name = "_Total")
    (hlk : r.props.lookup "ServiceUptime" = some v)
    (hst : statusAfter status v = none) :
    eventsGo expected status (r :: rs)
      = (expected, [], some (.unboundLocal "status")) := by
  conv_lhs => unfold eventsGo
  rw [if_neg hT, hlk]
  dsimp only
  rw [hst]

/-- Unfolding: with a status available and the site in the working set,
the loop emits the check, removes the site and recurses. -/
theorem eventsGo_cons_emit (expected : List String) (status : Option Status)
    (r : Record) (rs : List Record) (v : RawValue) (st : Status)
    (hT : ¬r.Name = "_Total")
    (hlk : r.props.lookup "ServiceUptime" = some v)
    (hst : statusAfter status v = some st) (hin : r.Name ∈ expected) :
    eventsGo expected status (r :: rs)
      = ((eventsGo (expected.erase r.Name) (some st) rs).1,
         ⟨"iis.site_up", st, ["site:" ++ r.Name]⟩
           :: (eventsGo (expected.erase r.Name) (some st) rs).2.1,
         (eventsGo (expected.erase r.Name) (some st) rs).2.2) := by
  conv_lhs => unfold eventsGo
  rw [if_neg hT, hlk]
  dsimp only
  rw [hst]
  dsimp only
  rw [if_pos hin]

/-- Unfolding: with a status available but the site absent from the
working set, the loop emits the check and aborts with `KeyError`. -/
theorem eventsGo_cons_removefail (expected : List String) (status : Option Status)
    (r : Record) (rs : List Record) (v : RawValue) (st : Status)
    (hT : ¬r.Name = "_Total")
    (hlk : r.props.lookup "ServiceUptime" = some v)
    (hst : statusAfter status v = some st) (hin : r.Name ∉ expected) :
    eventsGo expected status (r :: rs)
      = (expected, [⟨"iis.site_up", st, ["site:" ++ r.Name]⟩],
         some (.keyError r.Name)) := by
  conv_lhs => unfold eventsGo
  rw [if_neg hT, hlk]
  dsimp only
  rw [hst]
  dsimp only
  rw [if_neg hin]

/-- Loop invariants of the reconciliation record loop, for a site no
record carries: when the loop finishes without raising, the
multiplicity of that site in the working set is unchanged, and every
check the loop emitted is tagged with the site tag of some other
name. -/
theorem eventsGo_facts (site : String) (records : List Record) :
    ∀ (expected : List String) (status : Option Status),
    (∀ r ∈ records, r.Name ≠ site) →
    (eventsGo expected status records).2.2 = none →
    ((eventsGo expected status records).1.count site = expected.count site ∧
     ∀ e ∈ (eventsGo expected status records).2.1,
       ∃ n, n ≠ site ∧ e.tags = ["site:" ++ n]) := by
  induction records with
  | nil =>
    intro expected status _ _
    exact ⟨rfl, fun e he => absurd he (List.not_mem_nil e)⟩
  | cons r rs ih =>
    intro expected status hobs herr
    have hr : r.Name ≠ site := hobs r (List.mem_cons_self r rs)
    have hrs : ∀ x ∈ rs, x.Name ≠ site :=
      fun x hx => hobs x (List.mem_cons_of_mem r hx)
    by_cases hT : r.Name = "_Total"
    · rw [eventsGo_cons_total expected status r rs hT] at herr ⊢
      exact ih expected status hrs herr
    · cases hlk : r.props.lookup "ServiceUptime" with
      | none =>
        rw [eventsGo_cons_nolookup expected status r rs hT hlk] at herr
        exact absurd herr (by simp)
      | some v =>
        cases hst : statusAfter status v with
        | none =>
          rw [eventsGo_cons_nostatus expected status r rs v hT hlk hst] at herr
          exact absurd herr (by simp)
        | some st =>
          by_cases hin : r.Name ∈ expected
          · rw [eventsGo_cons_emit expected status r rs v st hT hlk hst hin] at herr ⊢
            dsimp only at herr ⊢
            obtain ⟨hcount, hems⟩ := ih (expected.erase r.Name) (some st) hrs herr
            refine ⟨?_, ?_⟩
            · rw [hcount]
              exact List.count_erase_of_ne (Ne.symm hr) expected
            · intro x hx
              rcases List.mem_cons.1 hx with he | hxs
              · exact ⟨r.Name, hr, by rw [he]⟩
              · exact hems x hxs
          · rw [eventsGo_cons_removefail expected status r rs v st hT hlk hst hin] at herr
            exact absurd herr (by simp)

/-- C7: when the reconciliation completes without raising, every
configured site other than `_Total` that appears as the `Name` of no
sampled record receives exactly one CRITICAL `iis.site_up` check tagged
`site:<name>` (and no OK check with that tag) once all records are
processed. -/
theorem c7_missing_site_critical (wmi_sampler : List Record) (sites : List String)
    (site : String) (hmem : site ∈ sites) (_hnt : site ≠ "_Total")
    (hobs : ∀ r ∈ wmi_sampler, r.Name ≠ site)
    (hok : (submit_events wmi_sampler sites).error = none) :
    (submit_events wmi_sampler sites).emissions.count
        ⟨"iis.site_up", Status.CRITICAL, ["site:" ++ site]⟩ = 1 ∧
    (submit_events wmi_sampler sites).emissions.count
        ⟨"iis.site_up", Status.OK, ["site:" ++ site]⟩ = 0 := by
  have herr : (eventsGo sites.dedup none wmi_sampler).2.2 = none := by
    by_contra hne
    rcases Option.ne_none_iff_exists'.1 hne with ⟨err, he⟩
    unfold submit_events at hok
    dsimp only at hok
    rw [he] at hok
    exact absurd hok (by simp)
  have hsub : submit_events wmi_sampler sites
      = ⟨(eventsGo sites.dedup none wmi_sampler).2.1
          ++ (eventsGo sites.dedup none wmi_sampler).1.map
              (fun s => ⟨"iis.site_up", Status.CRITICAL, ["site:" ++ s]⟩), none⟩ := by
    unfold submit_events
    dsimp only
    rw [herr]
  rw [hsub]
  dsimp only
  obtain ⟨hcount, hems⟩ := eventsGo_facts site wmi_sampler sites.dedup none hobs herr
  have hexp : (eventsGo sites.dedup none wmi_sampler).1.count site = 1 := by
    rw [hcount, List.count_dedup, if_pos hmem]
  constructor
  · rw [List.count_append]
    have h0 : (eventsGo sites.dedup none wmi_sampler).2.1.count
        (⟨"iis.site_up", Status.CRITICAL, ["site:" ++ site]⟩ : SCEmission) = 0 := by
      rw [List.count_eq_zero]
      intro hinx
      rcases hems _ hinx with ⟨n, hn, ht⟩
      have ht' : ["site:" ++ site] = ["site:" ++ n] := ht
      injection ht' with hh _
      exact hn (site_tag_inj hh).symm
    rw [h0]
    have hinj : Function.Injective
        (fun s : String => (⟨"iis.site_up", Status.CRITICAL, ["site:" ++ s]⟩ : SCEmission)) := by
      intro a b hab
      have htags : (["site:" ++ a] : List String) = ["site:" ++ b] :=
        congrArg SCEmission.tags hab
      injection htags with hh _
      exact site_tag_inj hh
    have hc := List.count_map_of_injective
        (eventsGo sites.dedup none wmi_sampler).1
        (fun s : String => (⟨"iis.site_up", Status.CRITICAL, ["site:" ++ s]⟩ : SCEmission))
        hinj site
    simpa using hc.trans hexp
  · rw [List.count_append]
    have h0 : (eventsGo sites.dedup none wmi_sampler).2.1.count
        (⟨"iis.site_up", Status.OK, ["site:" ++ site]⟩ : SCEmission) = 0 := by
      rw [List.count_eq_zero]
      intro hinx
      rcases hems _ hinx with ⟨n, hn, ht⟩
      have ht' : ["site:" ++ site] = ["site:" ++ n] := ht
      injection ht' with hh _
      exact hn (site_tag_inj hh).symm
    have h1 : ((eventsGo sites.dedup none wmi_sampler).1.map
        (fun s => (⟨"iis.site_up", Status.CRITICAL, ["site:" ++ s]⟩ : SCEmission))).count
        (⟨"iis.site_up", Status.OK, ["site:" ++ site]⟩ : SCEmission) = 0 := by
      rw [List.count_eq_zero]
      intro hinx
      rcases List.mem_map.1 hinx with ⟨s, _, hs⟩
      have hstex : Status.CRITICAL = Status.OK := congrArg SCEmission.status hs
      exact Status.noConfusion hstex
    rw [h0, h1]

/-- C7 witness: with one observed site `a` (uptime zero) and expected
sites `a` and `b`, the never-observed `b` gets exactly one CRITICAL
check tagged `site:b` and no OK check. -/
theorem c7_missing_site_critical_witness :
    (submit_events [⟨"a", [("ServiceUptime", RawValue.num 0)]⟩]
        ["a", "b"]).emissions.count
        ⟨"iis.site_up", Status.CRITICAL, ["site:" ++ "b"]⟩ = 1 ∧
    (submit_events [⟨"a", [("ServiceUptime", RawValue.num 0)]⟩]
        ["a", "b"]).emissions.count
        ⟨"iis.site_up", Status.OK, ["site:" ++ "b"]⟩ = 0 :=
  c7_missing_site_critical [⟨"a", [("ServiceUptime", RawValue.num 0)]⟩]
    ["a", "b"] "b" (by decide) (by decide) (by decide) (by rfl)
